import Mathlib

/-!
Verification of the EvolveAI multi-modal researcher pipeline
(`src/agent/configuration.py`, `src/agent/utils.py`, `src/agent/graph.py`).

The Python source is shallowly embedded: pure fragments become Lean
functions, adapter calls (local LLM text generation, Gemini TTS, wave-file
writing) are abstracted as injected adapter functions returning
`Except`, and the LangGraph execution of the registered graph is modelled
as explicit sequential composition of the node functions, threading the
state and a trace of external calls.
-/

namespace EvolveAI

/-! ## Python value model

`Configuration.from_runnable_config` manipulates untyped Python values
(strings from `os.environ`, arbitrary values from the runnable config,
dataclass defaults).  `PyVal` models the values that occur there, with
Python truthiness. -/

inductive PyVal where
  | none
  | str (s : String)
  | int (n : Int)
  | float (q : Rat)
deriving DecidableEq, Repr

/-- Python truthiness (`if v`): `None`, `""`, `0`, `0.0` are falsy. -/
def PyVal.truthy : PyVal → Bool
  | .none => false
  | .str s => !s.isEmpty
  | .int n => n != 0
  | .float q => q != 0

/-! ## Configuration (`src/agent/configuration.py`)

The dataclass with its built-in defaults.  Python floats carry only the
literals `0.0`, `0.3`, `0.4` here, represented exactly as rationals. -/

structure Configuration where
  local_llm_url : String := "http://localhost:1234/v1"
  local_model_name : String := "gemma-3n-e4b-it"
  tts_model : String := "tts-1-hd"
  search_temperature : Rat := 0
  synthesis_temperature : Rat := 3/10
  podcast_script_temperature : Rat := 2/5
  mike_voice : String := "Kore"
  sarah_voice : String := "Puck"
  tts_channels : Nat := 1
  tts_rate : Nat := 24000
  tts_sample_width : Nat := 2
deriving Repr, DecidableEq

/-- The dataclass fields with their built-in default values, in declaration
order, as `from_runnable_config` iterates over `fields(cls)`. -/
def configuration_field_defaults : List (String × PyVal) :=
  [("local_llm_url", .str "http://localhost:1234/v1"),
   ("local_model_name", .str "gemma-3n-e4b-it"),
   ("tts_model", .str "tts-1-hd"),
   ("search_temperature", .float 0),
   ("synthesis_temperature", .float (3/10)),
   ("podcast_script_temperature", .float (2/5)),
   ("mike_voice", .str "Kore"),
   ("sarah_voice", .str "Puck"),
   ("tts_channels", .int 1),
   ("tts_rate", .int 24000),
   ("tts_sample_width", .int 2)]

/-- Python `str.upper()` as applied to the dataclass field names
(`f.name.upper()`): character-wise ASCII uppercasing. -/
def py_upper (s : String) : String := String.mk (s.data.map Char.toUpper)

/-- Per-field resolution performed by `Configuration.from_runnable_config`
(configuration.py lines 44-49):

    values = { f.name: os.environ.get(f.name.upper(), configurable.get(f.name))
               for f in fields(cls) if f.init }
    return cls(**{k: v for k, v in values.items() if v})

`os.environ.get(KEY, fallback)` returns the environment value whenever the
variable is present (even when it is the empty string) and the fallback
otherwise; the `if v` comprehension then drops falsy values, so a dropped
field falls back to the dataclass default. -/
def resolve_field (env : String → Option String)
    (configurable : String → Option PyVal)
    (name : String) (default : PyVal) : PyVal :=
  let v : PyVal :=
    match env (py_upper name) with
    | some s => .str s
    | Option.none => (configurable name).getD .none
  if v.truthy then v else default

/-- `Configuration.from_runnable_config`, field by field: every dataclass
field is resolved by `resolve_field` against its built-in default. -/
def from_runnable_config (env : String → Option String)
    (configurable : String → Option PyVal) : List (String × PyVal) :=
  configuration_field_defaults.map
    (fun fd => (fd.1, resolve_field env configurable fd.1 fd.2))

/-! ## Topic sanitization (`src/agent/graph.py` lines 70-71)

    safe_topic = "".join(c for c in state["topic"]
                         if c.isalnum() or c in (' ', '-', '_')).rstrip()
    filename = f"research_podcast_\x7bsafe_topic.replace(' ', '_')\x7d.wav"
-/

/-- CPython `str.isalnum` for one character, modelled exactly on the Basic
Latin and Latin-1 Unicode blocks (code points below `0x100`): ASCII digits
and letters, the Latin-1 letters (`0xC0`-`0xFF` except `×` and `÷`, plus
`ª`, `µ`, `º`), and the Latin-1 numeric characters `²³¹¼½¾`.  Code points
at `0x100` and above are mapped to `false`; no theorem below depends on
the predicate's value in that range. -/
def pyIsAlnum (c : Char) : Bool :=
  decide ((48 ≤ c.toNat ∧ c.toNat ≤ 57) ∨
          (65 ≤ c.toNat ∧ c.toNat ≤ 90) ∨
          (97 ≤ c.toNat ∧ c.toNat ≤ 122) ∨
          c.toNat = 0xAA ∨ c.toNat = 0xB5 ∨ c.toNat = 0xBA ∨
          c.toNat = 0xB2 ∨ c.toNat = 0xB3 ∨ c.toNat = 0xB9 ∨
          c.toNat = 0xBC ∨ c.toNat = 0xBD ∨ c.toNat = 0xBE ∨
          (0xC0 ≤ c.toNat ∧ c.toNat ≤ 0xFF ∧ c.toNat ≠ 0xD7 ∧ c.toNat ≠ 0xF7))

/-- CPython `str.isspace` for one character, modelled exactly below
`0x100`: `\t`, `\n`, `\v`, `\f`, `\r`, the separators `0x1C`-`0x1F`,
space, `0x85`, and `0xA0`.  Used by the bare `str.rstrip()`. -/
def pyIsSpace (c : Char) : Bool :=
  decide ((9 ≤ c.toNat ∧ c.toNat ≤ 13) ∨
          (28 ≤ c.toNat ∧ c.toNat ≤ 32) ∨
          c.toNat = 0x85 ∨ c.toNat = 0xA0)

/-- The character filter of graph.py line 70:
`c.isalnum() or c in (' ', '-', '_')`. -/
def keep_topic_char (c : Char) : Bool :=
  pyIsAlnum c || c == ' ' || c == '-' || c == '_'

/-- Python `str.rstrip()` (no argument): drop trailing whitespace. -/
def py_rstrip (l : List Char) : List Char :=
  (l.reverse.dropWhile pyIsSpace).reverse

/-- `safe_topic` of graph.py line 70: keep alphanumerics, space, hyphen and
underscore, then strip trailing whitespace. -/
def safe_topic (topic : String) : String :=
  String.mk (py_rstrip (topic.data.filter keep_topic_char))

/-- Python `str.replace(' ', '_')`: with a one-character pattern this is a
character-wise map. -/
def replace_space_underscore (l : List Char) : List Char :=
  l.map (fun c => if c = ' ' then '_' else c)

/-- The podcast filename computed in `create_podcast_node`
(graph.py line 71). -/
def podcast_filename (topic : String) : String :=
  "research_podcast_" ++
    String.mk (replace_space_underscore (safe_topic topic).data) ++ ".wav"

/-- The filename formula as the spec words it (spec.md §8 / claim C1):
strip every character outside `[A-Za-z0-9 _-]`, trim trailing whitespace,
replace each space by an underscore, append `.wav`.  Stated from the
spec's words, for comparison with `podcast_filename` (which is embedded
from the source). -/
def spec_podcast_filename (topic : String) : String :=
  let kept := topic.data.filter (fun c =>
    decide ((48 ≤ c.toNat ∧ c.toNat ≤ 57) ∨
            (65 ≤ c.toNat ∧ c.toNat ≤ 90) ∨
            (97 ≤ c.toNat ∧ c.toNat ≤ 122) ∨
            c = ' ' ∨ c = '_' ∨ c = '-'))
  let trimmed := (kept.reverse.dropWhile (fun c => c == ' ')).reverse
  "research_podcast_" ++
    String.mk (trimmed.map (fun c => if c = ' ' then '_' else c)) ++ ".wav"

/-! ## Workflow state

Modelled from the spec: `graph.py` imports `ResearchState` from
`agent.state`, a module absent from the sources; the fields follow
spec.md §3 (all optional except `topic`).  Python dict access
`state.get(k)` / `state.get(k, "")` becomes `Option` access. -/

structure ResearchState where
  topic : String
  video_url : Option String := Option.none
  search_text : Option String := Option.none
  search_sources_text : Option String := Option.none
  video_text : Option String := Option.none
  report : Option String := Option.none
  synthesis_text : Option String := Option.none
  podcast_script : Option String := Option.none
  podcast_filename : Option String := Option.none
deriving Repr, DecidableEq

/-- Python truthiness of `state.get("video_url")`: truthy exactly when the
key is present with a non-empty string. -/
def videoUrlTruthy : Option String → Bool
  | Option.none => false
  | some s => !s.isEmpty

/-! ## External adapters and the call trace

The local LLM (`ChatOpenAI.invoke`), the Gemini TTS call and the wave-file
write are external collaborators; they are injected as functions and every
interaction is recorded as a `CallEvent`.  `enter` events are emitted by
the engine model when a node starts. -/

/-- The `ChatOpenAI` client constructed by `get_local_llm`
(utils.py lines 15-21).  Note that it is constructed with
`configuration.synthesis_temperature` — the only temperature field the
source ever reads. -/
structure ChatOpenAI where
  base_url : String
  model : String
  temperature : Rat
deriving Repr, DecidableEq

/-- `get_local_llm` (utils.py lines 15-21). -/
def get_local_llm (configuration : Configuration) : ChatOpenAI :=
  { base_url := configuration.local_llm_url,
    model := configuration.local_model_name,
    temperature := configuration.synthesis_temperature }

/-- One observable external interaction of a run. -/
inductive CallEvent where
  | enter (node : String)
  | textGen (prompt : String) (temperature : Rat)
  | ttsCall (transcript : String)
  | fileWrite (filename : String)
deriving Repr, DecidableEq

/-- The injected external services: text generation (`local_llm.invoke`)
and text-to-speech (`genai_client.models.generate_content`), each of which
may fail (modelling Python exceptions as `Except`). -/
structure Adapters where
  textGen : String → Rat → Except String String
  tts : String → Except String (List Nat)

/-- Total stub adapters built from pure functions, as used by the spec's
testable properties (fixed strings, fixed byte buffer). -/
def stubAdapters (g : String → Rat → String) (t : String → List Nat) :
    Adapters :=
  { textGen := fun p temp => .ok (g p temp), tts := fun s => .ok (t s) }

/-! ## Prompt construction (verbatim from the source f-strings) -/

/-- The search prompt of `search_research_node` (graph.py line 19). -/
def search_prompt (topic : String) : String :=
  "You are a world-class researcher. Find and synthesize information on the following topic: "
    ++ topic

/-- The video prompt of `analyze_video_node` (graph.py line 42). -/
def video_analysis_prompt (video_url topic : String) : String :=
  "Imagine you have watched a video at the URL " ++ video_url ++
    ". Based on its likely content, provide a summary of the topic: " ++ topic

/-- The synthesis prompt of `create_research_report`
(utils.py lines 177-193). -/
def synthesis_prompt (topic search_text video_text : String) : String :=
  "\n    You are a research analyst. I have gathered information about \"" ++
  topic ++
  "\" from two sources:\n\n    SEARCH RESULTS:\n    " ++
  search_text ++
  "\n\n    VIDEO CONTENT:\n    " ++
  video_text ++
  "\n\n    Please create a comprehensive synthesis that:\n" ++
  "    1. Identifies key themes and insights from both sources\n" ++
  "    2. Highlights any complementary or contrasting perspectives\n" ++
  "    3. Provides an overall analysis of the topic based on this multi-modal research\n" ++
  "    4. Keep it concise but thorough (3-4 paragraphs)\n\n" ++
  "    Focus on creating a coherent narrative that brings together the best insights from both sources.\n    "

/-- The podcast dialogue prompt of `create_podcast_discussion`
(utils.py lines 90-116). -/
def script_prompt (topic search_text video_text : String) : String :=
  "\n    Create a natural, engaging podcast conversation between Tim and Monica, who are both educators, about \"" ++
  topic ++
  "\".\n    The audience for this podcast is other educators.\n\n" ++
  "    Use this research content:\n\n    SEARCH FINDINGS:\n    " ++
  search_text ++
  "\n\n    VIDEO INSIGHTS:\n    " ++
  video_text ++
  "\n\n    Format as a dialogue with:\n" ++
  "    - Tim introducing the topic and asking questions from an educator\x27s perspective.\n" ++
  "    - Monica explaining key concepts and insights, relating them to teaching and education.\n" ++
  "    - Natural back-and-forth discussion (5-7 exchanges).\n" ++
  "    - Tim asking follow-up questions that an educator might have.\n" ++
  "    - Monica synthesizing the main takeaways for a classroom setting.\n" ++
  "    - Keep it conversational and accessible for educators (3-4 minutes when spoken).\n\n" ++
  "    Format exactly like this:\n    Tim: [opening question]\n" ++
  "    Monica: [expert response for educators]\n    Tim: [follow-up]\n" ++
  "    Monica: [explanation with educational context]\n    [continue...]\n    "

/-- The TTS prompt of `create_podcast_discussion` (utils.py line 122). -/
def tts_prompt (podcast_script : String) : String :=
  "TTS the following conversation between Tim and Monica:\n" ++ podcast_script

/-- The fixed trailer line of the report template (utils.py line 212). -/
def report_trailer : String :=
  "*Report generated using multi-modal AI research combining web search and video analysis*"

/-- The markdown report template of `create_research_report`
(utils.py lines 199-213). -/
def report_string (topic synthesis_text video_url search_sources_text : String) :
    String :=
  "# Research Report: " ++ topic ++
  "\n\n## Executive Summary\n\n" ++ synthesis_text ++
  "\n\n## Video Source\n- **URL**: " ++ video_url ++
  "\n\n## Additional Sources\n" ++ search_sources_text ++
  "\n\n---\n" ++ report_trailer ++ "\n"

/-! ## `create_research_report` and `create_podcast_discussion`
(`src/agent/utils.py`) -/

/-- `create_research_report` (utils.py lines 162-215): one synthesis call
to the local LLM, then pure formatting.  Returns the trace of adapter
calls and, on success, `(report, synthesis_text)`. -/
def create_research_report (A : Adapters) (topic search_text video_text
    search_sources_text video_url : String) (configuration : Configuration) :
    List CallEvent × Except String (String × String) :=
  let local_llm := get_local_llm configuration
  let prompt := synthesis_prompt topic search_text video_text
  match A.textGen prompt local_llm.temperature with
  | .error e => ([.textGen prompt local_llm.temperature], .error e)
  | .ok synthesis_text =>
      ([.textGen prompt local_llm.temperature],
       .ok (report_string topic synthesis_text video_url search_sources_text,
            synthesis_text))

/-- `create_podcast_discussion` (utils.py lines 79-159): a dialogue call
to the local LLM, a TTS call, then a wave-file write of the returned PCM
bytes.  Returns the trace and, on success, `(podcast_script, filename)`. -/
def create_podcast_discussion (A : Adapters) (topic search_text video_text
    _search_sources_text _video_url filename : String)
    (configuration : Configuration) :
    List CallEvent × Except String (String × String) :=
  let local_llm := get_local_llm configuration
  let prompt := script_prompt topic search_text video_text
  match A.textGen prompt local_llm.temperature with
  | .error e => ([.textGen prompt local_llm.temperature], .error e)
  | .ok podcast_script =>
      match A.tts (tts_prompt podcast_script) with
      | .error e =>
          ([.textGen prompt local_llm.temperature,
            .ttsCall (tts_prompt podcast_script)], .error e)
      | .ok _audio_data =>
          ([.textGen prompt local_llm.temperature,
            .ttsCall (tts_prompt podcast_script),
            .fileWrite filename],
           .ok (podcast_script, filename))

/-! ## Graph nodes (`src/agent/graph.py`)

Each node returns the adapter-call trace it produced and, on success, the
state with its partial update (the returned dict) merged in. -/

/-- `search_research_node` (graph.py lines 12-26). -/
def search_research_node (A : Adapters) (config : Configuration)
    (state : ResearchState) : List CallEvent × Except String ResearchState :=
  let local_llm := get_local_llm config
  let prompt := search_prompt state.topic
  match A.textGen prompt local_llm.temperature with
  | .error e => ([.textGen prompt local_llm.temperature], .error e)
  | .ok search_text =>
      ([.textGen prompt local_llm.temperature],
       .ok { state with
              search_text := some search_text,
              search_sources_text := some "Sources synthesized by local model." })

/-- `analyze_video_node` (graph.py lines 29-47): `if not video_url` guard,
otherwise one local-LLM call. -/
def analyze_video_node (A : Adapters) (config : Configuration)
    (state : ResearchState) : List CallEvent × Except String ResearchState :=
  if videoUrlTruthy state.video_url then
    let local_llm := get_local_llm config
    let prompt := video_analysis_prompt (state.video_url.getD "") state.topic
    match A.textGen prompt local_llm.temperature with
    | .error e => ([.textGen prompt local_llm.temperature], .error e)
    | .ok video_text =>
        ([.textGen prompt local_llm.temperature],
         .ok { state with video_text := some video_text })
  else
    ([], .ok { state with video_text := some "No video provided for analysis." })

/-- `create_report_node` (graph.py lines 50-63). -/
def create_report_node (A : Adapters) (config : Configuration)
    (state : ResearchState) : List CallEvent × Except String ResearchState :=
  let r := create_research_report A state.topic
    (state.search_text.getD "") (state.video_text.getD "")
    (state.search_sources_text.getD "") (state.video_url.getD "") config
  match r.2 with
  | .error e => (r.1, .error e)
  | .ok rs =>
      (r.1, .ok { state with report := some rs.1, synthesis_text := some rs.2 })

/-- `create_podcast_node` (graph.py lines 66-83): sanitizes the topic into
a filename, then delegates to `create_podcast_discussion`. -/
def create_podcast_node (A : Adapters) (config : Configuration)
    (state : ResearchState) : List CallEvent × Except String ResearchState :=
  let filename := podcast_filename state.topic
  let r := create_podcast_discussion A state.topic
    (state.search_text.getD "") (state.video_text.getD "")
    (state.search_sources_text.getD "") (state.video_url.getD "")
    filename config
  match r.2 with
  | .error e => (r.1, .error e)
  | .ok ps =>
      (r.1, .ok { state with podcast_script := some ps.1,
                             podcast_filename := some ps.2 })

/-- `should_analyze_video` (graph.py lines 85-87):
`"analyze_video" if state.get("video_url") else "create_report"`. -/
def should_analyze_video (state : ResearchState) : String :=
  if videoUrlTruthy state.video_url then "analyze_video" else "create_report"

/-- The conditional-edge mapping registered by `create_research_graph`
(graph.py lines 104-108): router result ↦ next node. -/
def conditional_edge_mapping : List (String × String) :=
  [("analyze_video", "analyze_video"), ("create_report", "create_report")]

/-- The unconditional edges registered by `create_research_graph`
(graph.py lines 103, 109-111), with `__start__`/`__end__` for
`START`/`END`. -/
def graph_edges : List (String × String) :=
  [("__start__", "search_research"),
   ("analyze_video", "create_report"),
   ("create_report", "create_podcast"),
   ("create_podcast", "__end__")]

/-! ## Graph execution

Modelled from the spec: the LangGraph engine compiled from
`create_research_graph` is library code; per spec.md §4.6 it executes the
nodes strictly sequentially in the order fixed by the registered edges
(Search → [Video Analysis] → Report → Podcast), merges each node's partial
update before invoking the next node, and stops at the first node error.
An `enter` event is recorded when a node starts. -/

/-- Tail of a run: the unconditional `create_report` → `create_podcast`
segment, appended to an already-produced trace. -/
def run_report_podcast (A : Adapters) (config : Configuration)
    (state : ResearchState) (trace : List CallEvent) :
    List CallEvent × Except String ResearchState :=
  let r3 := create_report_node A config state
  let t3 := trace ++ [CallEvent.enter "create_report"] ++ r3.1
  match r3.2 with
  | .error e => (t3, .error e)
  | .ok s3 =>
      let r4 := create_podcast_node A config s3
      (t3 ++ [CallEvent.enter "create_podcast"] ++ r4.1, r4.2)

/-- One full run of the compiled graph on input
`{topic, video_url}` (spec.md §4.6 transition table). -/
def run_research_graph (A : Adapters) (config : Configuration)
    (topic : String) (video_url : Option String) :
    List CallEvent × Except String ResearchState :=
  let s0 : ResearchState := { topic := topic, video_url := video_url }
  let r1 := search_research_node A config s0
  let t1 := [CallEvent.enter "search_research"] ++ r1.1
  match r1.2 with
  | .error e => (t1, .error e)
  | .ok s1 =>
      if should_analyze_video s1 = "analyze_video" then
        let r2 := analyze_video_node A config s1
        let t2 := t1 ++ [CallEvent.enter "analyze_video"] ++ r2.1
        match r2.2 with
        | .error e => (t2, .error e)
        | .ok s2 => run_report_podcast A config s2 t2
      else
        run_report_podcast A config s1 t1

/-- `needle` occurs verbatim as a contiguous substring of `hay`. -/
def occursIn (needle hay : String) : Prop :=
  ∃ l r : List Char, hay.data = l ++ needle.data ++ r

end EvolveAI
open EvolveAI

/-- Characters are equal iff their code points are. -/
theorem char_eq_iff_toNat (c d : Char) : c = d ↔ c.toNat = d.toNat :=
  ⟨fun h => h ▸ rfl, fun h => Char.eq_of_val_eq (UInt32.ext h)⟩

/-- Predicates that agree on every element of a list give the same
`dropWhile`. -/
theorem dropWhile_congr_all {α : Type} (p q : α → Bool) (l : List α)
    (h : ∀ a ∈ l, p a = q a) : l.dropWhile p = l.dropWhile q := by
  induction l with
  | nil => rfl
  | cons a l ih =>
      simp only [List.dropWhile_cons]
      rw [h a (List.mem_cons_self a l)]
      by_cases hq : q a = true
      · simp [hq]; exact ih fun b hb => h b (List.mem_cons_of_mem a hb)
      · simp [hq]

/-- Below code point 128 the source filter (Python `isalnum` plus space,
hyphen, underscore) coincides with the spec character class
`[A-Za-z0-9 _-]`. -/
theorem keep_topic_char_ascii (c : Char) (h : c.toNat < 128) :
    keep_topic_char c =
      decide ((48 ≤ c.toNat ∧ c.toNat ≤ 57) ∨
              (65 ≤ c.toNat ∧ c.toNat ≤ 90) ∨
              (97 ≤ c.toNat ∧ c.toNat ≤ 122) ∨
              c = ' ' ∨ c = '_' ∨ c = '-') := by
  rw [Bool.eq_iff_iff]
  simp only [keep_topic_char, pyIsAlnum, Bool.or_eq_true, decide_eq_true_eq,
    beq_iff_eq, char_eq_iff_toNat]
  norm_num
  omega

/-- An ASCII character kept by the topic filter is Python whitespace iff
it is the space character. -/
theorem pyIsSpace_of_kept (c : Char) (h128 : c.toNat < 128)
    (hk : keep_topic_char c = true) : pyIsSpace c = (c == ' ') := by
  have h32 : (' ' : Char).toNat = 32 := rfl
  have h95 : ('_' : Char).toNat = 95 := rfl
  have h45 : ('-' : Char).toNat = 45 := rfl
  unfold keep_topic_char pyIsAlnum at hk
  unfold pyIsSpace
  rw [Bool.eq_iff_iff]
  simp only [Bool.or_eq_true, decide_eq_true_eq, beq_iff_eq,
    char_eq_iff_toNat] at hk ⊢
  simp only [h32, h95, h45] at hk ⊢
  omega

/-- On all-ASCII topics the filename computed by the source agrees with
the filename formula worded by the spec. -/
theorem podcast_filename_ascii (topic : String)
    (h : ∀ c ∈ topic.data, c.toNat < 128) :
    podcast_filename topic = spec_podcast_filename topic := by
  have hfilter : topic.data.filter keep_topic_char =
      topic.data.filter (fun c =>
        decide ((48 ≤ c.toNat ∧ c.toNat ≤ 57) ∨
                (65 ≤ c.toNat ∧ c.toNat ≤ 90) ∨
                (97 ≤ c.toNat ∧ c.toNat ≤ 122) ∨
                c = ' ' ∨ c = '_' ∨ c = '-')) :=
    List.filter_congr (fun c hc => keep_topic_char_ascii c (h c hc))
  have hdrop : (topic.data.filter keep_topic_char).reverse.dropWhile pyIsSpace
      = (topic.data.filter keep_topic_char).reverse.dropWhile (fun c => c == ' ') := by
    apply dropWhile_congr_all
    intro a ha
    rw [List.mem_reverse, List.mem_filter] at ha
    exact pyIsSpace_of_kept a (h a ha.1) ha.2
  unfold podcast_filename spec_podcast_filename safe_topic py_rstrip
    replace_space_underscore
  rw [hdrop, hfilter]

/-- C2 counterexample: with the default configuration, the single
text-generation call made by the Search Node carries
`synthesis_temperature` (3/10), which differs from the configured
`search_temperature` (0) — so the node does not invoke the adapter with
the search temperature. -/
theorem claim2_counterexample :
    (search_research_node (stubAdapters (fun _ _ => "findings") (fun _ => []))
        {} { topic := "quantum computing" }).1 =
      [CallEvent.textGen (search_prompt "quantum computing")
        (({} : Configuration).synthesis_temperature)] ∧
    ({} : Configuration).synthesis_temperature ≠
      ({} : Configuration).search_temperature := by
  constructor
  · rfl
  · norm_num

/-- C2 (amended): for every configuration, adapter, and state, the Search
Node makes exactly one text-generation call, and that call carries the
configured `synthesis_temperature` (the temperature `get_local_llm`
installs), not the search temperature. -/
theorem claim2_search_temperature (A : Adapters) (config : Configuration)
    (s : ResearchState) :
    (search_research_node A config s).1 =
      [CallEvent.textGen (search_prompt s.topic) config.synthesis_temperature] := by
  cases h : A.textGen (search_prompt s.topic) config.synthesis_temperature <;>
    simp [search_research_node, get_local_llm, h]

/-- C3 counterexample: with both the environment variable `LOCAL_LLM_URL`
and the runnable-config override `local_llm_url` present and truthy, the
resolved value is the environment one, not the override — the claimed
precedence (override over environment) fails. -/
theorem claim3_counterexample :
    resolve_field
      (fun n => if n = "LOCAL_LLM_URL" then some "http://env.example/v1" else Option.none)
      (fun n => if n = "local_llm_url" then some (PyVal.str "http://cfg.example/v1") else Option.none)
      "local_llm_url" (PyVal.str "http://localhost:1234/v1") =
      PyVal.str "http://env.example/v1" ∧
    PyVal.str "http://env.example/v1" ≠ PyVal.str "http://cfg.example/v1" := by
  constructor
  · decide
  · decide

/-- Per-field precedence equation for `resolve_field`: a present
non-empty environment variable wins; otherwise a truthy runnable-config
override; otherwise the built-in default.  A present-but-empty
environment variable shadows the override and yields the default. -/
theorem resolve_field_precedence (env : String → Option String)
    (cfg : String → Option PyVal) (name : String) (d : PyVal) :
    resolve_field env cfg name d =
      match env (py_upper name) with
      | some s => if s.isEmpty then d else PyVal.str s
      | Option.none =>
          match cfg name with
          | some v => if v.truthy then v else d
          | Option.none => d := by
  unfold resolve_field
  cases h : env (py_upper name) with
  | none =>
      cases hc : cfg name with
      | none => simp [PyVal.truthy]
      | some v => by_cases hv : v.truthy <;> simp [hv]
  | some s => by_cases hs : s.isEmpty <;> simp [hs, PyVal.truthy]

/-- C3 (amended): `from_runnable_config` resolves every configuration
field with precedence environment variable (upper-cased field name) over
explicit runnable-config override over built-in default, keeping a
resolved value only when it is truthy/non-empty. -/
theorem claim3_env_beats_override (env : String → Option String)
    (cfg : String → Option PyVal) :
    from_runnable_config env cfg =
      configuration_field_defaults.map (fun fd =>
        (fd.1,
         match env (py_upper fd.1) with
         | some s => if s.isEmpty then fd.2 else PyVal.str s
         | Option.none =>
             match cfg fd.1 with
             | some v => if v.truthy then v else fd.2
             | Option.none => fd.2)) := by
  unfold from_runnable_config
  congr 1
  funext fd
  rw [resolve_field_precedence]

/-- C4: the router selects the Video Analysis Node exactly when
`video_url` is present and non-empty and the Report Node otherwise, and
its decision depends only on the `video_url` field: two states agreeing
on `video_url` get the same decision. -/
theorem claim4_router (s1 s2 : ResearchState) :
    should_analyze_video s1 =
      (if videoUrlTruthy s1.video_url then "analyze_video" else "create_report") ∧
    (s1.video_url = s2.video_url →
      should_analyze_video s1 = should_analyze_video s2) := by
  refine ⟨rfl, fun h => ?_⟩
  unfold should_analyze_video
  rw [h]

/-- C4 witness: two concrete states that differ everywhere except
`video_url` receive the same routing decision. -/
theorem claim4_witness :
    should_analyze_video ({ topic := "deep learning"
                            video_url := some "https://youtu.be/abc"
                            search_text := some "found A" } : ResearchState) =
      should_analyze_video ({ topic := "history of tea"
                              video_url := some "https://youtu.be/abc"
                              search_text := some "found B" } : ResearchState) :=
  (claim4_router _ _).2 rfl

/-- C6: invoked on a state whose `video_url` is absent or empty, the
Video Analysis Node returns the fixed "No video provided for analysis."
update and makes no adapter call (empty call trace). -/
theorem claim6_video_guard (A : Adapters) (config : Configuration)
    (s : ResearchState) (h : videoUrlTruthy s.video_url = false) :
    analyze_video_node A config s =
      ([], .ok { s with video_text := some "No video provided for analysis." }) := by
  unfold analyze_video_node
  rw [h]
  simp

/-- C6 witness: concrete evaluation on a state with no `video_url`. -/
theorem claim6_witness :
    videoUrlTruthy (ResearchState.video_url { topic := "volcanoes" }) = false ∧
    analyze_video_node (stubAdapters (fun _ _ => "text") (fun _ => []))
        {} { topic := "volcanoes" } =
      ([], .ok { topic := "volcanoes"
                 video_text := some "No video provided for analysis." }) :=
  ⟨rfl, claim6_video_guard _ _ _ rfl⟩

/-- C9: on every state the router returns one of exactly the two strings
"analyze_video" and "create_report", and its result is always a key of
the conditional-edge mapping registered on the graph. -/
theorem claim9_router_total (s : ResearchState) :
    (should_analyze_video s = "analyze_video" ∨
     should_analyze_video s = "create_report") ∧
    should_analyze_video s ∈ conditional_edge_mapping.map Prod.fst := by
  unfold should_analyze_video conditional_edge_mapping
  by_cases h : videoUrlTruthy s.video_url <;> simp [h]

/-- Replacing spaces by underscores leaves no space character. -/
theorem space_not_mem_replace (l : List Char) :
    ' ' ∉ replace_space_underscore l := by
  unfold replace_space_underscore
  intro h
  rcases List.mem_map.mp h with ⟨a, _, ha⟩
  by_cases h' : a = ' '
  · rw [if_pos h'] at ha
    exact absurd ha (by decide)
  · rw [if_neg h'] at ha
    exact h' ha

/-- C10: for every topic (including empty and all-stripped ones) the
computed podcast filename starts with "research_podcast_", ends with
".wav", and contains no space character. -/
theorem claim10_filename_shape (topic : String) :
    (∃ rest, podcast_filename topic = "research_podcast_" ++ rest) ∧
    (∃ stem, podcast_filename topic = stem ++ ".wav") ∧
    ' ' ∉ (podcast_filename topic).data := by
  refine ⟨⟨String.mk (replace_space_underscore (safe_topic topic).data) ++ ".wav", ?_⟩,
          ⟨"research_podcast_" ++ String.mk (replace_space_underscore (safe_topic topic).data), rfl⟩,
          ?_⟩
  · unfold podcast_filename
    simp [String.append_assoc]
  · unfold podcast_filename
    intro h
    simp only [String.data_append, List.mem_append] at h
    rcases h with (h | h) | h
    · exact absurd h (by decide)
    · exact space_not_mem_replace _ h
    · exact absurd h (by decide)

/-- C1 counterexample: the topic "AI & Education!" yields
`research_podcast_AI__Education.wav` (both spaces around `&` survive the
filter and become underscores), not the claimed
`research_podcast_AI_Education.wav`; and on the non-ASCII topic "é" the
code keeps the letter (Python `isalnum`) while the spec formula
`[A-Za-z0-9 _-]` strips it, so the claimed equality also fails there. -/
theorem claim1_counterexample :
    (podcast_filename "AI & Education!" = "research_podcast_AI__Education.wav" ∧
     podcast_filename "AI & Education!" ≠ "research_podcast_AI_Education.wav") ∧
    podcast_filename "é" ≠ spec_podcast_filename "é" := by
  refine ⟨⟨by decide, by decide⟩, by decide⟩

/-- C1 (amended): for every topic consisting of ASCII characters, the
filename computed by `create_podcast_node` equals `research_podcast_`
followed by the topic with all characters outside `[A-Za-z0-9 _-]`
stripped, trailing whitespace trimmed, each space replaced by an
underscore, and `.wav` appended; in particular the topic
"AI & Education!" yields `research_podcast_AI__Education.wav`. -/
theorem claim1_sanitized_filename (topic : String)
    (h : ∀ c ∈ topic.data, c.toNat < 128) :
    podcast_filename topic = spec_podcast_filename topic ∧
    podcast_filename "AI & Education!" = "research_podcast_AI__Education.wav" :=
  ⟨podcast_filename_ascii topic h, by decide⟩

/-- C1 witness: the ASCII hypothesis holds for "AI & Education!" and the
amended equality evaluates there. -/
theorem claim1_witness :
    (∀ c ∈ ("AI & Education!" : String).data, c.toNat < 128) ∧
    podcast_filename "AI & Education!" = spec_podcast_filename "AI & Education!" :=
  ⟨by decide, (claim1_sanitized_filename "AI & Education!" (by decide)).1⟩

/-- A string occurs in itself. -/
theorem occursIn_refl (n : String) : occursIn n n :=
  ⟨[], [], by simp⟩

/-- Occurrence is preserved by appending on the right. -/
theorem occursIn_append_l (n a b : String) (h : occursIn n a) :
    occursIn n (a ++ b) := by
  rcases h with ⟨l, r, hr⟩
  exact ⟨l, r ++ b.data, by simp [hr]⟩

/-- Occurrence is preserved by appending on the left. -/
theorem occursIn_append_r (n a b : String) (h : occursIn n b) :
    occursIn n (a ++ b) := by
  rcases h with ⟨l, r, hr⟩
  exact ⟨a.data ++ l, r, by simp [hr]⟩

/-- C7: over stub adapters, `create_research_report` makes exactly one
text-generation call (the synthesis call — none for formatting) and its
report contains, verbatim, the topic, the video URL string (the node
passes the empty string when absent), the synthesis text returned by the
adapter, the sources block, and the fixed trailer. -/
theorem claim7_report_contents (g : String → Rat → String)
    (t : String → List Nat) (config : Configuration)
    (topic search_text video_text search_sources_text video_url : String) :
    let syn := g (synthesis_prompt topic search_text video_text)
      config.synthesis_temperature
    let rep := report_string topic syn video_url search_sources_text
    (create_research_report (stubAdapters g t) topic search_text video_text
        search_sources_text video_url config).1 =
      [CallEvent.textGen (synthesis_prompt topic search_text video_text)
        config.synthesis_temperature] ∧
    (create_research_report (stubAdapters g t) topic search_text video_text
        search_sources_text video_url config).2 = .ok (rep, syn) ∧
    occursIn topic rep ∧
    occursIn video_url rep ∧
    occursIn syn rep ∧
    occursIn search_sources_text rep ∧
    occursIn report_trailer rep := by
  dsimp only
  refine ⟨rfl, rfl, ?_, ?_, ?_, ?_, ?_⟩
  · unfold report_string
    apply occursIn_append_l
    apply occursIn_append_l
    apply occursIn_append_l
    apply occursIn_append_l
    apply occursIn_append_l
    apply occursIn_append_l
    apply occursIn_append_l
    apply occursIn_append_l
    apply occursIn_append_l
    apply occursIn_append_r
    exact occursIn_refl _
  · unfold report_string
    apply occursIn_append_l
    apply occursIn_append_l
    apply occursIn_append_l
    apply occursIn_append_l
    apply occursIn_append_l
    apply occursIn_append_r
    exact occursIn_refl _
  · unfold report_string
    apply occursIn_append_l
    apply occursIn_append_l
    apply occursIn_append_l
    apply occursIn_append_l
    apply occursIn_append_l
    apply occursIn_append_l
    apply occursIn_append_l
    apply occursIn_append_r
    exact occursIn_refl _
  · unfold report_string
    apply occursIn_append_l
    apply occursIn_append_l
    apply occursIn_append_l
    apply occursIn_append_r
    exact occursIn_refl _
  · unfold report_string
    apply occursIn_append_l
    apply occursIn_append_r
    exact occursIn_refl _

/-- C8: if the text-generation adapter fails on the Search prompt, the
run stops with that error after the Search Node: the trace holds no TTS
call and no file write, so no audio file is produced. -/
theorem claim8_search_failure (A : Adapters) (config : Configuration)
    (topic : String) (video_url : Option String) (e : String)
    (h : A.textGen (search_prompt topic) config.synthesis_temperature = .error e) :
    run_research_graph A config topic video_url =
      ([CallEvent.enter "search_research",
        CallEvent.textGen (search_prompt topic) config.synthesis_temperature],
       .error e) ∧
    (∀ s, CallEvent.ttsCall s ∉ (run_research_graph A config topic video_url).1) ∧
    (∀ f, CallEvent.fileWrite f ∉ (run_research_graph A config topic video_url).1) := by
  have h1 : run_research_graph A config topic video_url =
      ([CallEvent.enter "search_research",
        CallEvent.textGen (search_prompt topic) config.synthesis_temperature],
       .error e) := by
    unfold run_research_graph
    simp [search_research_node, get_local_llm, h]
  refine ⟨h1, fun s hs => ?_, fun f hf => ?_⟩
  · rw [h1] at hs
    simp at hs
  · rw [h1] at hf
    simp at hf

/-- C8 witness: a concrete adapter whose text generation always fails
aborts a concrete run during Search with the error surfaced. -/
theorem claim8_witness :
    ({ textGen := fun _ _ => .error "connection refused",
       tts := fun _ => .ok [] } : Adapters).textGen
        (search_prompt "fusion power")
        (({} : Configuration).synthesis_temperature) =
      .error "connection refused" ∧
    run_research_graph
        { textGen := fun _ _ => .error "connection refused",
          tts := fun _ => .ok [] } {} "fusion power"
        (some "https://youtu.be/v") =
      ([CallEvent.enter "search_research",
        CallEvent.textGen (search_prompt "fusion power")
          (({} : Configuration).synthesis_temperature)],
       .error "connection refused") :=
  ⟨rfl, (claim8_search_failure _ _ _ _ _ rfl).1⟩

/-- C5: over total stub adapters the run is strictly sequential: with a
non-empty `video_url` the trace is exactly Search entry and call, Video
Analysis entry and call, Report entry and synthesis call, Podcast entry,
dialogue call, TTS call, and the file write, in that order (3
text-generation calls plus the dialogue call plus one TTS call); without
a video URL the Video Analysis entry and call are absent (2
text-generation calls plus the dialogue call plus one TTS call) and the
Video Analysis Node is never entered. -/
theorem claim5_call_sequence (g : String → Rat → String)
    (t : String → List Nat) (config : Configuration)
    (topic : String) (video_url : Option String) :
    let A := stubAdapters g t
    let temp := config.synthesis_temperature
    let search_text := g (search_prompt topic) temp
    let video_text := g (video_analysis_prompt (video_url.getD "") topic) temp
    (run_research_graph A config topic video_url).1 =
      (if videoUrlTruthy video_url then
        [CallEvent.enter "search_research",
         CallEvent.textGen (search_prompt topic) temp,
         CallEvent.enter "analyze_video",
         CallEvent.textGen (video_analysis_prompt (video_url.getD "") topic) temp,
         CallEvent.enter "create_report",
         CallEvent.textGen (synthesis_prompt topic search_text video_text) temp,
         CallEvent.enter "create_podcast",
         CallEvent.textGen (script_prompt topic search_text video_text) temp,
         CallEvent.ttsCall (tts_prompt (g (script_prompt topic search_text video_text) temp)),
         CallEvent.fileWrite (podcast_filename topic)]
      else
        [CallEvent.enter "search_research",
         CallEvent.textGen (search_prompt topic) temp,
         CallEvent.enter "create_report",
         CallEvent.textGen (synthesis_prompt topic search_text "") temp,
         CallEvent.enter "create_podcast",
         CallEvent.textGen (script_prompt topic search_text "") temp,
         CallEvent.ttsCall (tts_prompt (g (script_prompt topic search_text "") temp)),
         CallEvent.fileWrite (podcast_filename topic)]) ∧
    (videoUrlTruthy video_url = false →
      CallEvent.enter "analyze_video" ∉ (run_research_graph A config topic video_url).1) := by
  dsimp only
  have hne : ("create_report" : String) ≠ "analyze_video" := by decide
  cases hv : videoUrlTruthy video_url with
  | true =>
      constructor
      · simp [run_research_graph, run_report_podcast, search_research_node,
          analyze_video_node, create_report_node, create_podcast_node,
          create_research_report, create_podcast_discussion, get_local_llm,
          stubAdapters, should_analyze_video, hv]
      · intro hfalse
        exact absurd hfalse (by decide)
  | false =>
      constructor
      · simp [run_research_graph, run_report_podcast, search_research_node,
          analyze_video_node, create_report_node, create_podcast_node,
          create_research_report, create_podcast_discussion, get_local_llm,
          stubAdapters, should_analyze_video, hv, hne]
      · intro _
        have htrace : (run_research_graph (stubAdapters g t) config topic video_url).1 =
            [CallEvent.enter "search_research",
             CallEvent.textGen (search_prompt topic) config.synthesis_temperature,
             CallEvent.enter "create_report",
             CallEvent.textGen (synthesis_prompt topic (g (search_prompt topic) config.synthesis_temperature) "") config.synthesis_temperature,
             CallEvent.enter "create_podcast",
             CallEvent.textGen (script_prompt topic (g (search_prompt topic) config.synthesis_temperature) "") config.synthesis_temperature,
             CallEvent.ttsCall (tts_prompt (g (script_prompt topic (g (search_prompt topic) config.synthesis_temperature) "") config.synthesis_temperature)),
             CallEvent.fileWrite (podcast_filename topic)] := by
          simp [run_research_graph, run_report_podcast, search_research_node,
            analyze_video_node, create_report_node, create_podcast_node,
            create_research_report, create_podcast_discussion, get_local_llm,
            stubAdapters, should_analyze_video, hv, hne]
        rw [htrace]
        simp

/-- C5 witness: in a concrete run without a video URL the Video Analysis
Node is never entered. -/
theorem claim5_witness :
    CallEvent.enter "analyze_video" ∉
      (run_research_graph (stubAdapters (fun _ _ => "stub text") (fun _ => [0]))
        {} "solar flares" Option.none).1 :=
  (claim5_call_sequence (fun _ _ => "stub text") (fun _ => [0])
    {} "solar flares" Option.none).2 rfl
